import Mathlib

/-!
Shallow embedding of `src/sqlstrings/postgre.py` (the statement-builder
module of the sqlstrings repository) and proofs about its behaviour.

Python dynamic values are modelled by the inductive type `Val`; Python
dicts (ordered mappings) by association lists `List (String × Val)`;
Python union parameter types (`str | list`, `str | tuple`) by dedicated
sum types.  Functions that can raise a Python exception are embedded as
`Except String` computations; the error string records the exception.
-/

namespace postgre

/-- A dynamically typed Python value, as passed to the builders. -/
inductive Val
  | int (n : Int)
  | str (s : String)
  | null
deriving DecidableEq

/-- Modelled from the spec: the function `write_val` is imported from
`sqlstrings.value_handling`, a module of this repository that is not under
`src/`.  The spec (section 4.1 Value Formatter) says it returns the SQL
literal text of a value, quoting string kinds, rendering NULL for absent
values and passing numeric kinds unquoted. -/
def write_val : Val → String
  | .int n => toString n
  | .str s => "'" ++ s ++ "'"
  | .null => "NULL"

/-- An item handed to Python `str.join`: either a `str`, or a `set`
(which `insert` produces by writing a set display around each value). -/
inductive PyObj
  | pyStr (s : String)
  | pySet (elems : List String)
deriving DecidableEq

/-- The message of the TypeError raised by `str.join` on a set item. -/
def typeErrorMsg : String :=
  "TypeError: sequence item 0: expected str instance, set found"

/-- The message of the IndexError raised by `names_values[0]` on `[]`. -/
def indexErrorMsg : String := "IndexError: list index out of range"

/-- Python `str.join` demands every item be a `str`; a set item raises
TypeError (at the first non-str item, in iteration order). -/
def pyItemStr : PyObj → Except String String
  | .pyStr s => .ok s
  | .pySet _ => .error typeErrorMsg

/-- Collect the items consumed by `str.join`, left to right, stopping at
the first item that is not a `str`. -/
def pyItemStrs : List PyObj → Except String (List String)
  | [] => .ok []
  | item :: rest =>
    match pyItemStr item with
    | .error e => .error e
    | .ok s => (pyItemStrs rest).map fun l => s :: l

/-- Python `sep.join(items)`: empty iterable yields the empty string
without inspecting items; otherwise every item must be a `str`. -/
def pyStrJoin (sep : String) (items : List PyObj) : Except String String :=
  (pyItemStrs items).map (String.intercalate sep)

/-- The argument of `insert`: a dict, or a list of dicts. -/
inductive InsertArg
  | dict (d : List (String × Val))
  | list (l : List (List (String × Val)))
deriving DecidableEq

/-- The inner function of `insert`:
`", ".join(map(lambda v: {write_val(v)}, value_dict.values()))`.
Each value is wrapped in a one-element set display, so the join raises
TypeError as soon as the dict has any value. -/
def args_serialise (value_dict : List (String × Val)) : Except String String :=
  pyStrJoin ", " (value_dict.map fun p => PyObj.pySet [write_val p.2])

/-- The per-row serialisation of the list branch of `insert`:
`map(lambda d: f'({args_serialise(d)})', names_values)`, consumed left to
right by the outer join, propagating the first exception. -/
def serialiseRows : List (List (String × Val)) → Except String (List String)
  | [] => .ok []
  | d :: rest =>
    match args_serialise d with
    | .error e => .error e
    | .ok s => (serialiseRows rest).map fun l => ("(" ++ s ++ ")") :: l

/-- `insert(table_name, names_values)` from postgre.py. -/
def insert (table_name : String) (names_values : InsertArg) : Except String String :=
  let outstr := "INSERT INTO " ++ table_name ++ "\n"
  match names_values with
  | .list l =>
    match l with
    | [] => .error indexErrorMsg
    | d0 :: _ =>
      let names := d0.map Prod.fst
      match serialiseRows l with
      | .error e => .error e
      | .ok groups =>
        let values_str := String.intercalate ", \n\t" groups
        let names_str := String.intercalate ", " names
        .ok (outstr ++ ("\t" ++ table_name ++ "(" ++ names_str ++ ")\nVALUES\n\t" ++ values_str ++ ";"))
  | .dict d =>
    let names := d.map Prod.fst
    match args_serialise d with
    | .error e => .error e
    | .ok s =>
      let values_str := "(" ++ s ++ ")"
      let names_str := String.intercalate ", " names
      .ok (outstr ++ ("\t" ++ table_name ++ "(" ++ names_str ++ ")\nVALUES\n\t" ++ values_str ++ ";"))

/-- `update(table_name, names_values, where)` from postgre.py.  Note the
semicolon is appended only inside the `where` branch. -/
def update (table_name : String) (names_values : List (String × Val))
    (where_ : Option String) : String :=
  let outstr := "UPDATE " ++ table_name ++ "\nSET "
  let outstr := outstr ++
    String.intercalate ",\n    " (names_values.map fun kvp => kvp.1 ++ " = " ++ write_val kvp.2)
  match where_ with
  | none => outstr
  | some w => outstr ++ ("\nWHERE " ++ w ++ ";")

/-- `create_table(table_name, names_types)` from postgre.py. -/
def create_table (table_name : String) (names_types : List (String × String)) : String :=
  let outstr := "CREATE TABLE " ++ table_name ++ " ("
  outstr ++ (String.intercalate ",\n\t" (names_types.map fun kvp => kvp.1 ++ " " ++ kvp.2) ++ "\n);")

/-- `procedure_call(proc_name, param_args)` from postgre.py: uses only the
values of the mapping, discarding the parameter names. -/
def procedure_call (proc_name : String) (param_args : List (String × Val)) : String :=
  "CALL " ++ proc_name ++ "(" ++
    String.intercalate ", " (param_args.map fun kvp => write_val kvp.2) ++ ");"

/-- The argument of `drop_table`: one table name, or a list of names. -/
inductive StrOrList
  | str (s : String)
  | list (l : List String)
deriving DecidableEq

/-- `drop_table(table_names, if_exists, cascade, restrict)` from postgre.py. -/
def drop_table (table_names : StrOrList) (if_exists cascade restrict : Bool) : String :=
  let outstr := "DROP TABLE "
  let outstr := outstr ++ (if if_exists then " IF EXISTS  " else "")
  let outstr := outstr ++
    (match table_names with
     | .str s => s
     | .list l => String.intercalate ", " l)
  let outstr := outstr ++ (if cascade && !restrict then " CASCADE" else "")
  let outstr := outstr ++ (if restrict && !cascade then " RESTRICT" else "")
  outstr ++ ";"

/-- A `str | tuple[str]` parameter of `select`. -/
inductive StrOrTuple
  | str (s : String)
  | tup (ts : List String)
deriving DecidableEq

/-- Python `tuple(s)` on a string: the tuple of its one-character strings. -/
def strToTuple (s : String) : List String := s.data.map Char.toString

/-- The list of column names a `str | tuple[str]` argument denotes, after
the `tuple(x) if isinstance(x, str) else x` normalisation in `select`. -/
def tupleOf : StrOrTuple → List String
  | .str s => strToTuple s
  | .tup ts => ts

/-- `select(cols, frm, distinct, where, group_by, having, order_by,
order_desc, limit, offset, fetch)` from postgre.py. -/
def select (cols : StrOrTuple) (frm : String) (distinct : Bool)
    (where_ : Option String) (group_by : Option StrOrTuple) (having : Option String)
    (order_by : Option StrOrTuple) (order_desc : Bool)
    (limit offset fetch : Option Int) : String :=
  let outstr := "SELECT " ++ (if distinct then "DISTINCT " else "") ++
    String.intercalate ", " (tupleOf cols)
  let outstr := outstr ++ ("\nFROM " ++ frm)
  let outstr := outstr ++
    (match where_ with
     | none => ""
     | some w => "\nWHERE " ++ w)
  let outstr := outstr ++
    (match group_by with
     | none => ""
     | some g => "\nGROUP BY " ++ String.intercalate ", " (tupleOf g))
  let outstr := outstr ++
    (match having with
     | none => ""
     | some h => "\nHAVING " ++ h)
  let outstr := outstr ++
    (match order_by with
     | some o => "\nORDER BY " ++ String.intercalate ", " (tupleOf o) ++
         (if order_desc then " DESC" else "")
     | none => if order_desc then "\nORDER BY DESC" else "")
  let outstr := outstr ++
    (match limit with
     | none => ""
     | some n => "\nLIMIT " ++ toString n)
  let outstr := outstr ++
    (match offset with
     | none => ""
     | some n => "\nOFFSET " ++ toString n ++ " ROWS")
  let outstr := outstr ++
    (match fetch with
     | none => ""
     | some n => "\nFETCH FIRST " ++ toString n ++ " ROWS ONLY")
  outstr ++ ";"

/-- An `insert` argument carries at least one column: a non-empty dict,
or a list in which some dict is non-empty. -/
def hasColumn : InsertArg → Prop
  | .dict d => d ≠ []
  | .list l => ∃ d ∈ l, d ≠ []

/-- The SELECT clause of `select` (with the optional DISTINCT marker). -/
def selectClause (cols : StrOrTuple) (distinct : Bool) : String :=
  "SELECT " ++ (if distinct then "DISTINCT " else "") ++ String.intercalate ", " (tupleOf cols)

/-- The FROM clause of `select`. -/
def fromClause (frm : String) : String := "\nFROM " ++ frm

/-- The WHERE clause of `select`; empty when the argument is omitted. -/
def whereClause : Option String → String
  | none => ""
  | some w => "\nWHERE " ++ w

/-- The GROUP BY clause of `select`; empty when the argument is omitted. -/
def groupByClause : Option StrOrTuple → String
  | none => ""
  | some g => "\nGROUP BY " ++ String.intercalate ", " (tupleOf g)

/-- The HAVING clause of `select`; empty when the argument is omitted. -/
def havingClause : Option String → String
  | none => ""
  | some h => "\nHAVING " ++ h

/-- The ORDER BY clause of `select`; when order_by is omitted but
order_desc is true, the source emits the bare fragment ORDER BY DESC. -/
def orderByClause : Option StrOrTuple → Bool → String
  | some o, order_desc =>
    "\nORDER BY " ++ String.intercalate ", " (tupleOf o) ++
      (if order_desc then " DESC" else "")
  | none, order_desc => if order_desc then "\nORDER BY DESC" else ""

/-- The LIMIT clause of `select`; empty when the argument is omitted. -/
def limitClause : Option Int → String
  | none => ""
  | some n => "\nLIMIT " ++ toString n

/-- The OFFSET clause of `select`; empty when the argument is omitted. -/
def offsetClause : Option Int → String
  | none => ""
  | some n => "\nOFFSET " ++ toString n ++ " ROWS"

/-- The FETCH clause of `select`; empty when the argument is omitted. -/
def fetchClause : Option Int → String
  | none => ""
  | some n => "\nFETCH FIRST " ++ toString n ++ " ROWS ONLY"

/-- Appending a string whose last character is a semicolon keeps the last
character a semicolon. -/
theorem getLast_semi_append (s t : String) (h : t.data.getLast? = some ';') :
    (s ++ t).data.getLast? = some ';' := by
  rw [String.data_append, List.getLast?_append, h]
  rfl

/-- The row serialiser raises the join TypeError as soon as any row dict
is non-empty. -/
theorem serialiseRows_error (l : List (List (String × Val)))
    (h : ∃ d ∈ l, d ≠ []) : serialiseRows l = Except.error typeErrorMsg := by
  induction l with
  | nil => simp at h
  | cons d rest ih =>
    cases d with
    | cons p r => rfl
    | nil =>
      have h' : ∃ d ∈ rest, d ≠ [] := by
        rcases h with ⟨d', hd', hne⟩
        rcases List.mem_cons.mp hd' with h1 | h2
        · exact absurd h1 hne
        · exact ⟨d', h2, hne⟩
      show (serialiseRows rest).map _ = _
      rw [ih h']
      rfl

/-- When an `insert` call returns a string, that string ends in `;`. -/
theorem insert_ok_getLast (table : String) (nv : InsertArg) (s : String)
    (h : insert table nv = Except.ok s) : s.data.getLast? = some ';' := by
  cases nv with
  | dict d =>
    simp only [insert] at h
    cases hd : args_serialise d with
    | error e => rw [hd] at h; cases h
    | ok v =>
      rw [hd] at h
      simp only [Except.ok.injEq] at h
      subst h
      exact getLast_semi_append _ _ (getLast_semi_append _ ";" rfl)
  | list l =>
    cases l with
    | nil => simp only [insert] at h; cases h
    | cons d0 rest =>
      simp only [insert] at h
      cases hr : serialiseRows (d0 :: rest) with
      | error e => rw [hr] at h; cases h
      | ok groups =>
        rw [hr] at h
        simp only [Except.ok.injEq] at h
        subst h
        exact getLast_semi_append _ _ (getLast_semi_append _ ";" rfl)

/-- Claim C1 (code bug): the spec example says the single-mapping call
insert of table t with columns a mapped to 1 and b mapped to the text x
returns the finished INSERT statement, but the source wraps each written
value in a one-element set display and str.join of those sets raises
TypeError, so at exactly the spec example input the call raises instead of
returning the claimed string. -/
theorem c1_insert_single_mapping_raises :
    insert "t" (InsertArg.dict [("a", Val.int 1), ("b", Val.str "x")]) =
      Except.error typeErrorMsg := rfl

/-- Claim C2 (confirmed): for every names_values argument carrying at
least one column, insert raises the join TypeError instead of returning a
string, and the empty mapping avoids the error and returns a string. -/
theorem c2_insert_nonempty_raises :
    (∀ table nv, hasColumn nv → insert table nv = Except.error typeErrorMsg) ∧
    (∀ table, ∃ s, insert table (InsertArg.dict []) = Except.ok s) := by
  constructor
  · intro table nv h
    cases nv with
    | dict d =>
      cases d with
      | nil => exact absurd rfl h
      | cons p r => rfl
    | list l => cases l with
      | nil => simp [hasColumn] at h
      | cons d0 rest =>
        have hs : serialiseRows (d0 :: rest) = Except.error typeErrorMsg :=
          serialiseRows_error _ h
        simp only [insert, hs]
  · intro table
    exact ⟨_, rfl⟩

/-- Witness for C2 at a concrete input. -/
theorem c2_witness :
    insert "t" (InsertArg.dict [("a", Val.int 1)]) = Except.error typeErrorMsg ∧
    ∃ s, insert "t" (InsertArg.dict []) = Except.ok s :=
  ⟨c2_insert_nonempty_raises.1 "t" _ (List.cons_ne_nil _ _),
   c2_insert_nonempty_raises.2 "t"⟩

/-- Claim C3 (code bug): with no order_by and order_desc set, the source
emits the malformed bare fragment ORDER BY DESC, which the spec says a
correct implementation must not emit; the output at the spec example input
is shown verbatim, with the malformed fragment inside it. -/
theorem c3_select_emits_bare_order_by_desc :
    select (StrOrTuple.tup ["a"]) "t" false none none none none true none none none =
      "SELECT a\nFROM t\nORDER BY DESC;" ∧
    List.IsInfix ("ORDER BY DESC").data
      (select (StrOrTuple.tup ["a"]) "t" false none none none none true none none none).data :=
  ⟨rfl, by decide⟩

/-- Counterexample for C4: with both cascade and restrict set, the output
contains no CASCADE keyword at all, contrary to the claim that cascade
wins. -/
theorem c4_counterexample :
    drop_table (StrOrList.list ["t1", "t2"]) false true true = "DROP TABLE t1, t2;" ∧
    ¬ List.IsInfix ("CASCADE").data
      (drop_table (StrOrList.list ["t1", "t2"]) false true true).data :=
  ⟨rfl, by decide⟩

/-- Claim C4 (amended): when both the cascade and restrict flags are set,
neither conditional fires, so the result is the same string as with both
flags unset: neither keyword is appended. -/
theorem c4_both_flags_append_neither (table_names : StrOrList) (if_exists : Bool) :
    drop_table table_names if_exists true true =
      drop_table table_names if_exists false false := rfl

/-- Counterexample for C5: update without a where argument returns a
string whose last character is the last character of the final value, not
a semicolon, because the source appends the semicolon only inside the
where branch. -/
theorem c5_counterexample :
    (update "t" [("a", Val.int 1)] none).data.getLast? = some '1' ∧
    (update "t" [("a", Val.int 1)] none).data.getLast? ≠ some ';' :=
  ⟨rfl, by decide⟩

/-- Claim C5 (amended): every public builder returns a string whose last
character is a semicolon on every input on which it returns, except
update when where is omitted, which returns with no terminator. -/
theorem c5_amended_terminators :
    (∀ table nv s, insert table nv = Except.ok s → s.data.getLast? = some ';') ∧
    (∀ table nv w, (update table nv (some w)).data.getLast? = some ';') ∧
    (∀ table nt, (create_table table nt).data.getLast? = some ';') ∧
    (∀ p a, (procedure_call p a).data.getLast? = some ';') ∧
    (∀ ns ie c r, (drop_table ns ie c r).data.getLast? = some ';') ∧
    (∀ cols frm d w g hv o od l off f,
      (select cols frm d w g hv o od l off f).data.getLast? = some ';') := by
  refine ⟨insert_ok_getLast, fun table nv w => ?_, fun table nt => ?_,
    fun p a => ?_, fun ns ie c r => ?_, fun cols frm d w g hv o od l off f => ?_⟩
  · exact getLast_semi_append _ _ (getLast_semi_append _ ";" rfl)
  · exact getLast_semi_append _ _ (getLast_semi_append _ "\n);" rfl)
  · exact getLast_semi_append _ ");" rfl
  · exact getLast_semi_append _ ";" rfl
  · exact getLast_semi_append _ ";" rfl

/-- Witness for C5 at a concrete input. -/
theorem c5_witness :
    insert "t" (InsertArg.dict []) = Except.ok "INSERT INTO t\n\tt()\nVALUES\n\t();" ∧
    ("INSERT INTO t\n\tt()\nVALUES\n\t();" : String).data.getLast? = some ';' :=
  ⟨rfl, c5_amended_terminators.1 "t" (InsertArg.dict []) _ rfl⟩

/-- Counterexample for C6: the claimed output has a single space between
TABLE and IF, but the source output has two, because the literal DROP
TABLE already ends in a space and the IF EXISTS fragment starts with
one. -/
theorem c6_counterexample :
    drop_table (StrOrList.list ["t1", "t2"]) true false false ≠
      "DROP TABLE IF EXISTS  t1, t2;" := by decide

/-- Claim C6 (amended): the call returns the string with two spaces
between TABLE and IF and two spaces between EXISTS and the first table
name, the names joined by a comma and a space. -/
theorem c6_amended_double_space :
    drop_table (StrOrList.list ["t1", "t2"]) true false false =
      "DROP TABLE  IF EXISTS  t1, t2;" := rfl

/-- Claim C7 (confirmed): the update of table t setting column a to 1
with the condition id=5 contains the fragment SET a = 1 and ends with the
fragment WHERE id=5 followed by the terminator. -/
theorem c7_update_set_and_where :
    List.IsInfix ("SET a = 1").data (update "t" [("a", Val.int 1)] (some "id=5")).data ∧
    List.IsSuffix ("WHERE id=5;").data (update "t" [("a", Val.int 1)] (some "id=5")).data := by
  constructor <;> decide

/-- Claim C8 (confirmed): a plain-string cols, group_by or order_by
argument is normalised to the tuple of its one-character strings before
joining with a comma and a space, so select of the string ab from t
begins with SELECT a, b. -/
theorem c8_string_args_split_to_chars :
    (∀ s frm, select (StrOrTuple.str s) frm false none none none none false none none none =
      select (StrOrTuple.tup (strToTuple s)) frm false none none none none false none none none) ∧
    (∀ s cols frm,
      select cols frm false none (some (StrOrTuple.str s)) none none false none none none =
      select cols frm false none (some (StrOrTuple.tup (strToTuple s))) none none false none none none) ∧
    (∀ s cols frm,
      select cols frm false none none none (some (StrOrTuple.str s)) false none none none =
      select cols frm false none none none (some (StrOrTuple.tup (strToTuple s))) false none none none) ∧
    List.IsPrefix ("SELECT a, b").data
      (select (StrOrTuple.str "ab") "t" false none none none none false none none none).data :=
  ⟨fun s frm => rfl, fun s cols frm => rfl, fun s cols frm => rfl, by decide⟩

/-- Counterexample for C9: with order_by omitted but order_desc set, the
ORDER BY fragment still appears in the output, so an omitted optional
clause can contribute text. -/
theorem c9_counterexample :
    select (StrOrTuple.tup ["x"]) "u" false none none none none true none none none =
      "SELECT x\nFROM u\nORDER BY DESC;" ∧
    List.IsInfix ("ORDER BY").data
      (select (StrOrTuple.tup ["x"]) "u" false none none none none true none none none).data :=
  ⟨rfl, by decide⟩

/-- Claim C9 (amended): the output of select is exactly the concatenation
of its clauses in the fixed grammar order SELECT, FROM, WHERE, GROUP BY,
HAVING, ORDER BY, LIMIT, OFFSET, FETCH followed by the terminator, and
every omitted optional clause contributes the empty string, with the one
exception that an omitted order_by with order_desc set contributes the
malformed fragment ORDER BY DESC in the ORDER BY position. -/
theorem c9_amended_clause_order :
    (∀ cols frm distinct where_ group_by having order_by order_desc limit offset fetch,
      select cols frm distinct where_ group_by having order_by order_desc limit offset fetch =
        selectClause cols distinct ++ fromClause frm ++ whereClause where_ ++
        groupByClause group_by ++ havingClause having ++ orderByClause order_by order_desc ++
        limitClause limit ++ offsetClause offset ++ fetchClause fetch ++ ";") ∧
    whereClause none = "" ∧ groupByClause none = "" ∧ havingClause none = "" ∧
    orderByClause none false = "" ∧ limitClause none = "" ∧ offsetClause none = "" ∧
    fetchClause none = "" ∧ orderByClause none true = "\nORDER BY DESC" := by
  refine ⟨?_, rfl, rfl, rfl, rfl, rfl, rfl, rfl, rfl⟩
  intro cols frm distinct where_ group_by having order_by order_desc limit offset fetch
  cases where_ <;> cases group_by <;> cases having <;> cases order_by <;>
    cases limit <;> cases offset <;> cases fetch <;> rfl

/-- Claim C10 (confirmed): every builder is embedded as a total function
of its arguments alone, so two calls with equal arguments return equal
results; the embedding carries no state component because the source
reads and writes none. -/
theorem c10_builders_deterministic :
    (∀ (t1 t2 : String) (nv1 nv2 : InsertArg),
      t1 = t2 → nv1 = nv2 → insert t1 nv1 = insert t2 nv2) ∧
    (∀ (t1 t2 : String) (nv1 nv2 : List (String × Val)) (w1 w2 : Option String),
      t1 = t2 → nv1 = nv2 → w1 = w2 → update t1 nv1 w1 = update t2 nv2 w2) ∧
    (∀ (t1 t2 : String) (nt1 nt2 : List (String × String)),
      t1 = t2 → nt1 = nt2 → create_table t1 nt1 = create_table t2 nt2) ∧
    (∀ (p1 p2 : String) (a1 a2 : List (String × Val)),
      p1 = p2 → a1 = a2 → procedure_call p1 a1 = procedure_call p2 a2) ∧
    (∀ (n1 n2 : StrOrList) (ie1 ie2 c1 c2 r1 r2 : Bool),
      n1 = n2 → ie1 = ie2 → c1 = c2 → r1 = r2 →
      drop_table n1 ie1 c1 r1 = drop_table n2 ie2 c2 r2) ∧
    (∀ (a1 a2 : StrOrTuple) (b1 b2 : String) (c1 c2 : Bool) (d1 d2 : Option String)
      (e1 e2 : Option StrOrTuple) (f1 f2 : Option String) (g1 g2 : Option StrOrTuple)
      (h1 h2 : Bool) (i1 i2 j1 j2 k1 k2 : Option Int),
      a1 = a2 → b1 = b2 → c1 = c2 → d1 = d2 → e1 = e2 → f1 = f2 → g1 = g2 →
      h1 = h2 → i1 = i2 → j1 = j2 → k1 = k2 →
      select a1 b1 c1 d1 e1 f1 g1 h1 i1 j1 k1 =
        select a2 b2 c2 d2 e2 f2 g2 h2 i2 j2 k2) := by
  refine ⟨?_, ?_, ?_, ?_, ?_, ?_⟩ <;> · intros; subst_vars; rfl

/-- Witness for C10 at a concrete input. -/
theorem c10_witness :
    insert "t" (InsertArg.dict []) = insert "t" (InsertArg.dict []) :=
  c10_builders_deterministic.1 "t" "t" (InsertArg.dict []) (InsertArg.dict []) rfl rfl

end postgre
